import Mathlib

set_option maxRecDepth 8000

/-!
Verification of the Pangolin TUI installer wizard (install/tui.go).

This file gives a shallow embedding of the wizard navigation state machine,
the wizard controller (the bubbletea `Update` loop and its handlers), and the
bounded log sink, and proves/refutes the frozen claims about them.

Modelling conventions:
* `screenID` (a Go string type with 15 named constants) becomes an inductive
  type with one constructor per constant.  The Go `switch` statements over
  screens have a `default` arm; whenever a reachable constant is not listed
  in a `switch` (e.g. `crowdsecInstallScreen` in `getPrevScreen`) the
  embedding maps it to what the `default` arm returns, with a comment.
* `Config` carries exactly the fields `tui.go` reads or writes; fields of
  the Go struct that the TUI never touches are omitted.  Go zero values are
  the Lean defaults.
* The bubbles text-input widget is modelled by its observable surface: a
  current string value and a focused flag.  Cursor position, echo mode and
  placeholders are presentation-only and omitted.  Typing a printable rune
  into a focused input appends it (subject to the CharLimit 100), which is
  the only widget behaviour the controller's state depends on.
* The viewport widget is modelled by its content string; scroll offset is
  presentation-only and omitted.
* `tea.Cmd` values returned by `Update` are modelled by a list of `Eff`
  values: `quit`, a delivered follow-up message, or the launch of one of the
  four asynchronous step sequences (whose external side effects are out of
  scope; the messages they deliver are fed to `update` explicitly in the
  theorems, exactly as bubbletea feeds them back).
* External collaborators (`getPublicIP`, file system, subprocesses) are out
  of scope; `getPublicIP`'s result is threaded through the model as the
  ambient `publicIP` field, never mutated.
-/

namespace PangolinTui

/-- The 15 screen identifiers of `tui.go` (the Go `screenID` string constants). -/
inductive ScreenID
  | welcome
  | hybridMode
  | hybridCredentials
  | domainConfig
  | emailConfig
  | emailInput
  | advancedConfig
  | container
  | installContainers
  | install
  | crowdsec
  | crowdsecManage
  | crowdsecInstall
  | setupToken
  | complete
deriving DecidableEq, Repr, BEq

/-- The container runtime choice (`Docker` / `Podman` constants used by tui.go). -/
inductive ContainerType
  | Docker
  | Podman
deriving DecidableEq, Repr, BEq

/-- The configuration record, restricted to the fields `tui.go` reads/writes.
Go zero values are the defaults. -/
structure Config where
  HybridMode : Bool := false
  BaseDomain : String := ""
  DashboardDomain : String := ""
  LetsEncryptEmail : String := ""
  EnableEmail : Bool := false
  EmailSMTPHost : String := ""
  EmailSMTPPort : Int := 0
  EmailSMTPUser : String := ""
  EmailSMTPPass : String := ""
  EmailNoReply : String := ""
  EnableIPv6 : Bool := false
  InstallationContainerType : ContainerType := ContainerType.Docker
  DoCrowdsecInstall : Bool := false
  InstallGerbil : Bool := false
  Secret : String := ""
deriving DecidableEq, Repr

/-- `getNextScreen` from tui.go (lines 209-269).  `choice` is the button
index (`m.lastChoice` / `m.focusIndex`, a non-negative Go int). -/
def getNextScreen (currentScreen : ScreenID) (choice : Nat) (config : Config) : ScreenID :=
  match currentScreen with
  | .welcome => .hybridMode
  | .hybridMode => if choice = 0 then .hybridCredentials else .domainConfig
  | .hybridCredentials => .domainConfig
  | .domainConfig => if config.HybridMode then .advancedConfig else .emailConfig
  | .emailConfig => if choice = 0 then .emailInput else .advancedConfig
  | .emailInput => .advancedConfig
  | .advancedConfig => .container
  | .container => .installContainers
  | .installContainers => .install
  | .install => if !config.HybridMode then .crowdsec else .setupToken
  | .crowdsec => if choice = 0 then .crowdsecManage else .setupToken
  | .crowdsecManage => if config.DoCrowdsecInstall then .crowdsecInstall else .setupToken
  | .crowdsecInstall => .setupToken
  | .setupToken => .complete
  | .complete => .complete

/-- `getPrevScreen` from tui.go (lines 271-317).  Note: the Go `switch` has
no case for `crowdsecInstallScreen`, so it falls through to the `default`
arm, which returns `welcomeScreen`. -/
def getPrevScreen (currentScreen : ScreenID) (config : Config) : ScreenID :=
  match currentScreen with
  | .welcome => .welcome
  | .hybridMode => .welcome
  | .hybridCredentials => .hybridMode
  | .domainConfig => if config.HybridMode then .hybridCredentials else .hybridMode
  | .emailConfig => .domainConfig
  | .emailInput => .emailConfig
  | .advancedConfig =>
      if config.HybridMode then .domainConfig
      else if config.EnableEmail then .emailInput
      else .emailConfig
  | .container => .advancedConfig
  | .installContainers => .container
  | .install => .installContainers
  | .crowdsec => .install
  | .crowdsecManage => .crowdsec
  | .crowdsecInstall => .welcome
  | .setupToken => if config.DoCrowdsecInstall then .crowdsecManage else .install
  | .complete => .complete

/-- The exact condition under which `getPrevScreen` inverts `getNextScreen`
at a given screen, choice and configuration (computed by case analysis on
the two functions). -/
def nextPrevInvCond (s : ScreenID) (choice : Nat) (cfg : Config) : Prop :=
  match s with
  | .welcome => True
  | .hybridMode => choice = 0 ∨ cfg.HybridMode = false
  | .hybridCredentials => cfg.HybridMode = true
  | .domainConfig => True
  | .emailConfig => choice = 0 ∨ (cfg.HybridMode = false ∧ cfg.EnableEmail = false)
  | .emailInput => cfg.HybridMode = false ∧ cfg.EnableEmail = true
  | .advancedConfig => True
  | .container => True
  | .installContainers => True
  | .install => cfg.HybridMode = false ∨ cfg.DoCrowdsecInstall = false
  | .crowdsec => choice = 0
  | .crowdsecManage => False
  | .crowdsecInstall => False
  | .setupToken => False
  | .complete => True

/-- The all-zero-values configuration (Go `Config{}`). -/
def cfg0 : Config := {}

/-- Form field kinds (`fieldButton` / `fieldInput`). -/
inductive FieldType
  | fieldButton
  | fieldInput
deriving DecidableEq, Repr, BEq

/-- A form field: observable surface of the Go `field` struct.  The bubbles
text-input widget is reduced to its current string value and focused flag
(cursor position, placeholder and echo mode are presentation-only). -/
structure Field where
  fieldType : FieldType
  label : String
  value : String := ""
  required : Bool := false
  focused : Bool := false
deriving DecidableEq, Repr

/-- Fallback used where Go would index `m.fields[i]` (Go panics out of
bounds; the theorems carry the bounds the controller maintains). -/
def emptyField : Field := { fieldType := FieldType.fieldInput, label := "" }

/-- `createInputField` from tui.go (Width/CharLimit are widget set-up; the
CharLimit of 100 is enforced in `insertChar`). -/
def createInputField (label : String) (required : Bool) : Field :=
  { fieldType := FieldType.fieldInput, label := label, required := required }

/-- `createButtonField` from tui.go. -/
def createButtonField (label : String) : Field :=
  { fieldType := FieldType.fieldButton, label := label }

/-- Key events the controller distinguishes (`keyMap` bindings plus
printable runes, which the focused text input consumes). -/
inductive Key
  | enter
  | esc
  | tab
  | shiftTab
  | up
  | down
  | left
  | right
  | ctrlC
  | help
  | char (c : Char)
deriving DecidableEq, Repr

/-- The message types consumed by `model.Update` (tui.go lines 344-349).
`WindowSizeMsg` and `spinner.TickMsg` only touch presentation state and are
omitted. -/
inductive Msg
  | keyMsg (k : Key)
  | installStepMsg (step : String)
  | installLogMsg (log : String)
  | installBatchLogsMsg (logs : List String)
  | installCompleteMsg
  | installErrorMsg (e : String)
deriving DecidableEq, Repr

/-- Effects standing for the `tea.Cmd` values `Update` returns: quit, a
message the command will deliver back to the loop, the spinner tick, or the
launch of one of the asynchronous step sequences. -/
inductive Eff
  | quit
  | deliver (msg : Msg)
  | spinnerTick
  | performInstallation
  | performCrowdsecInstallation
  | performConfigCreation
  | performConfigCreationAndProceed
deriving DecidableEq, Repr

/-- The wizard controller state: the fields of the Go `model` struct that
carry behaviour (spinner, help and width/height are presentation-only; the
viewport is reduced to its content).  `publicIP` models the result of the
external `getPublicIP()` collaborator, threaded as ambient read-only
environment. -/
structure Model where
  currentScreen : ScreenID
  config : Config := {}
  fields : List Field := []
  focusIndex : Nat := 0
  err : Option String := none
  showHelp : Bool := false
  installing : Bool := false
  lastChoice : Nat := 0
  installLogs : List String := []
  viewportContent : String := ""
  installStep : String := ""
  publicIP : String := ""
deriving DecidableEq, Repr

/-- Single-line append of the log sink (`installLogMsg` handler, tui.go
lines 476-485): append, then drop the oldest line if over 200. -/
def appendOne (logs : List String) (log : String) : List String :=
  let logs := logs ++ [log]
  if 200 < logs.length then logs.drop 1 else logs

/-- Batch append of the log sink (`installBatchLogsMsg` handler, tui.go
lines 487-496): append all, then keep only the last 200. -/
def appendBatch (logs newLogs : List String) : List String :=
  let logs := logs ++ newLogs
  if 200 < logs.length then logs.drop (logs.length - 200) else logs

/-- `strings.Contains`: `pat` occurs as a contiguous substring of `s`. -/
def strContains (s pat : String) : Bool :=
  (List.range (s.toList.length + 1)).any (fun i => pat.toList.isPrefixOf (s.toList.drop i))

/-- The designated success marker scanned for by the batch-log handler. -/
def successMarker : String := "🎉 Installation completed successfully!"

/-- The marker scan of the `installBatchLogsMsg` handler (tui.go lines
498-506): per line, success marker checked before the failure marker
`"Error"`; first hit wins.  `some true` = completion, `some false` =
failure, `none` = no marker found. -/
def scanLogs : List String → Option Bool
  | [] => none
  | log :: rest =>
      if strContains log successMarker then some true
      else if strContains log "Error" then some false
      else scanLogs rest

/-- `strings.TrimSuffix`. -/
def strTrimSuffix (s suffixStr : String) : String :=
  if suffixStr.toList.isSuffixOf s.toList then
    String.mk (s.toList.take (s.toList.length - suffixStr.toList.length))
  else s

/-- Numeric value of a digit string. -/
def digitsVal (l : List Char) : Nat :=
  l.foldl (fun a c => a * 10 + (c.toNat - 48)) 0

/-- `strconv.Atoi`: optional sign followed by one or more decimal digits.
(Go additionally rejects values outside int64; inputs that long are not
reachable through any claim and the bound is abstracted away.) -/
def goAtoi (s : String) : Option Int :=
  match s.toList with
  | [] => none
  | '+' :: rest =>
      if rest ≠ [] ∧ rest.all Char.isDigit then some (Int.ofNat (digitsVal rest)) else none
  | '-' :: rest =>
      if rest ≠ [] ∧ rest.all Char.isDigit then some (-(Int.ofNat (digitsVal rest))) else none
  | l => if l.all Char.isDigit then some (Int.ofNat (digitsVal l)) else none

/-- `updateFocus` (tui.go lines 559-571): focus exactly the input at
`focusIndex`, blur every other input; buttons are untouched. -/
def updateFocus (m : Model) : Model :=
  { m with fields := m.fields.mapIdx (fun i f =>
      if f.fieldType == FieldType.fieldInput then { f with focused := i == m.focusIndex } else f) }

/-- `initScreen` (tui.go lines 822-990): discard the field set and rebuild
it for the current screen, seeding values from the configuration. -/
def initScreen (m : Model) : Model :=
  let m := { m with fields := [], focusIndex := 0, err := none }
  let m :=
    match m.currentScreen with
    | .welcome => m
    | .hybridMode =>
        let m := { m with fields := [createButtonField "Yes", createButtonField "No"] }
        if m.config.HybridMode then { m with focusIndex := 0 } else { m with focusIndex := 1 }
    | .hybridCredentials =>
        { m with fields := [createButtonField "Yes", createButtonField "No"] }
    | .domainConfig =>
        if m.config.HybridMode then
          let f0 := createInputField "Public IP or Domain" true
          let f0 :=
            if m.config.DashboardDomain ≠ "" then { f0 with value := m.config.DashboardDomain }
            else if m.publicIP ≠ "" then { f0 with value := m.publicIP }
            else f0
          { m with fields := [f0, createButtonField "Continue"] }
        else
          let f0 := createInputField "Base Domain" true
          let f1 := createInputField "Dashboard Subdomain" false
          let f2 := createInputField "Let's Encrypt Email" true
          let f0 :=
            if m.config.BaseDomain ≠ "" then { f0 with value := m.config.BaseDomain } else f0
          let f1 :=
            if m.config.DashboardDomain ≠ "" ∧ m.config.BaseDomain ≠ "" then
              let subdomain := strTrimSuffix m.config.DashboardDomain ("." ++ m.config.BaseDomain)
              if subdomain ≠ m.config.DashboardDomain then { f1 with value := subdomain } else f1
            else f1
          let f2 :=
            if m.config.LetsEncryptEmail ≠ "" then { f2 with value := m.config.LetsEncryptEmail }
            else f2
          { m with fields := [f0, f1, f2, createButtonField "Continue"] }
    | .emailConfig =>
        let m := { m with fields := [createButtonField "Yes", createButtonField "No"] }
        if m.config.EnableEmail then { m with focusIndex := 0 } else { m with focusIndex := 1 }
    | .emailInput =>
        let f0 := createInputField "SMTP Host" false
        let f1 := createInputField "SMTP Port" false
        let f2 := createInputField "SMTP Username" false
        let f3 := createInputField "SMTP Password" false
        let f4 := createInputField "No-Reply Email" false
        let f0 :=
          if m.config.EmailSMTPHost ≠ "" then { f0 with value := m.config.EmailSMTPHost } else f0
        let f1 :=
          if 0 < m.config.EmailSMTPPort then { f1 with value := toString m.config.EmailSMTPPort }
          else { f1 with value := "587" }
        let f2 :=
          if m.config.EmailSMTPUser ≠ "" then { f2 with value := m.config.EmailSMTPUser } else f2
        let f3 :=
          if m.config.EmailSMTPPass ≠ "" then { f3 with value := m.config.EmailSMTPPass } else f3
        let f4 :=
          if m.config.EmailNoReply ≠ "" then { f4 with value := m.config.EmailNoReply } else f4
        { m with fields := [f0, f1, f2, f3, f4, createButtonField "Continue"] }
    | .advancedConfig =>
        { m with fields := [createButtonField "Yes", createButtonField "No"] }
    | .container =>
        let m := { m with fields := [createButtonField "Docker", createButtonField "Podman"] }
        if m.config.InstallationContainerType == ContainerType.Podman then
          { m with focusIndex := 1 }
        else { m with focusIndex := 0 }
    | .installContainers =>
        { m with fields := [createButtonField "Yes", createButtonField "No"] }
    | .crowdsec =>
        { m with fields := [createButtonField "Yes", createButtonField "No"] }
    | .crowdsecManage =>
        { m with fields := [createButtonField "Yes", createButtonField "No"] }
    | .crowdsecInstall => m
    | .setupToken => m
    | .install => m
    | .complete => m
  updateFocus m

/-- `hasButtonFields` (tui.go lines 573-580). -/
def hasButtonFields (m : Model) : Bool :=
  m.fields.any (fun f => f.fieldType == FieldType.fieldButton)

/-- `handleNavigation` (tui.go lines 542-557): cyclic focus advance/retreat,
no-op on an empty field set, clears any displayed error. -/
def handleNavigation (m : Model) (direction : Int) : Model × List Eff :=
  if m.fields.length = 0 then (m, [])
  else
    let m := { m with err := none }
    let fi :=
      if 0 < direction then (m.focusIndex + 1) % m.fields.length
      else (m.focusIndex + m.fields.length - 1) % m.fields.length
    (updateFocus { m with focusIndex := fi }, [])

/-- `handleBack` (tui.go lines 582-595): quit from the welcome screen or on
a `prev` fixed point, otherwise transition and rebuild fields. -/
def handleBack (m : Model) : Model × List Eff :=
  if m.currentScreen = ScreenID.welcome then (m, [Eff.quit])
  else
    let prevScreen := getPrevScreen m.currentScreen m.config
    if prevScreen = m.currentScreen then (m, [Eff.quit])
    else (initScreen { m with currentScreen := prevScreen }, [])

/-- The email-field save block shared by `handleSubmit` and `nextScreen`
(tui.go lines 707-716 and 767-777): read the five text inputs into the
configuration, defaulting an unparsable port to 587. -/
def saveEmailFromFields (m : Model) : Model :=
  let port : Int :=
    match goAtoi ((m.fields.getD 1 emptyField).value) with
    | some p => p
    | none => 587
  { m with config := { m.config with
      EmailSMTPHost := (m.fields.getD 0 emptyField).value,
      EmailSMTPPort := port,
      EmailSMTPUser := (m.fields.getD 2 emptyField).value,
      EmailSMTPPass := (m.fields.getD 3 emptyField).value,
      EmailNoReply := (m.fields.getD 4 emptyField).value } }

/-- `startInstallation` (tui.go lines 1012-1019): mark busy, launch the
primary step sequence. -/
def startInstallation (m : Model) : Model × List Eff :=
  ({ m with installing := true }, [Eff.spinnerTick, Eff.performInstallation])

/-- `startCrowdsecInstallation` (tui.go lines 1021-1028). -/
def startCrowdsecInstallation (m : Model) : Model × List Eff :=
  ({ m with installing := true }, [Eff.spinnerTick, Eff.performCrowdsecInstallation])

/-- `createConfigFilesOnly` (tui.go lines 1030-1037; dead code in the Go
file, kept for completeness). -/
def createConfigFilesOnly (m : Model) : Model × List Eff :=
  ({ m with installing := true }, [Eff.spinnerTick, Eff.performConfigCreation])

/-- `createConfigFilesAndProceed` (tui.go lines 1039-1046). -/
def createConfigFilesAndProceed (m : Model) : Model × List Eff :=
  ({ m with installing := true }, [Eff.spinnerTick, Eff.performConfigCreationAndProceed])

/-- `nextScreen` (tui.go lines 761-820): ask the screen graph for the next
screen, save email fields if leaving the email-input screen, then perform
the screen-specific entry action.  The branch at Go lines 804-816 is dead
(its guard requires `nextScreen == installContainersScreen`, already
returned at line 794) and is transcribed as written. -/
def nextScreen (m : Model) : Model × List Eff :=
  let ns := getNextScreen m.currentScreen m.lastChoice m.config
  let m :=
    if m.currentScreen = ScreenID.emailInput ∧ 5 ≤ m.fields.length then saveEmailFromFields m
    else m
  let m := { m with currentScreen := ns }
  if ns = ScreenID.install then startInstallation m
  else if ns = ScreenID.crowdsecInstall then startCrowdsecInstallation m
  else if ns = ScreenID.complete ∧ m.currentScreen = ScreenID.complete then (m, [Eff.quit])
  else if ns = ScreenID.installContainers then (initScreen m, [])
  else if m.currentScreen = ScreenID.installContainers ∧ m.installing = false then
    if m.lastChoice = 0 then startInstallation m
    else if !m.config.HybridMode then (initScreen { m with currentScreen := ScreenID.crowdsec }, [])
    else (initScreen { m with currentScreen := ScreenID.setupToken }, [])
  else (initScreen m, [])

/-- The Go loop in `validateAndSaveDomainConfig` over required fields:
first field that is required with empty value. -/
def findRequiredEmpty : List Field → Option Field
  | [] => none
  | f :: rest => if f.required ∧ f.value = "" then some f else findRequiredEmpty rest

/-- `validateAndSaveDomainConfig` (tui.go lines 724-759): reject on the
first required-empty field with an error naming it; otherwise write the
domain settings (hybrid: verbatim address; standard: subdomain defaulted to
"pangolin", dashboard domain derived) and move to the next screen. -/
def validateAndSaveDomainConfig (m : Model) : Model × List Eff :=
  match findRequiredEmpty m.fields with
  | some f => ({ m with err := some (f.label ++ " is required") }, [])
  | none =>
      if m.config.HybridMode then
        let dashboardDomain := (m.fields.getD 0 emptyField).value
        nextScreen { m with config := { m.config with
          DashboardDomain := dashboardDomain,
          InstallGerbil := true } }
      else
        let baseDomain := (m.fields.getD 0 emptyField).value
        let subdomain := (m.fields.getD 1 emptyField).value
        let email := (m.fields.getD 2 emptyField).value
        let subdomain := if subdomain = "" then "pangolin" else subdomain
        let dashboardDomain := subdomain ++ "." ++ baseDomain
        nextScreen { m with config := { m.config with
          BaseDomain := baseDomain,
          DashboardDomain := dashboardDomain,
          LetsEncryptEmail := email,
          InstallGerbil := true } }

/-- `handleSubmit` (tui.go lines 700-722). -/
def handleSubmit (m : Model) : Model × List Eff :=
  match m.currentScreen with
  | .domainConfig => validateAndSaveDomainConfig m
  | .emailInput =>
      nextScreen (if 5 ≤ m.fields.length then saveEmailFromFields m else m)
  | _ => nextScreen m

/-- `handleButtonPress` (tui.go lines 632-698): record the choice, apply
the screen-specific configuration effect, transition. -/
def handleButtonPress (m : Model) : Model × List Eff :=
  let m := { m with lastChoice := m.focusIndex }
  match m.currentScreen with
  | .welcome => nextScreen m
  | .hybridMode =>
      nextScreen { m with config := { m.config with HybridMode := m.focusIndex == 0 } }
  | .hybridCredentials => nextScreen m
  | .domainConfig => validateAndSaveDomainConfig m
  | .emailConfig =>
      nextScreen { m with config := { m.config with EnableEmail := m.focusIndex == 0 } }
  | .emailInput => handleSubmit m
  | .advancedConfig =>
      nextScreen { m with config := { m.config with EnableIPv6 := m.focusIndex == 0 } }
  | .container =>
      nextScreen { m with config := { m.config with InstallationContainerType :=
        if m.focusIndex == 0 then ContainerType.Docker else ContainerType.Podman } }
  | .installContainers => createConfigFilesAndProceed m
  | .crowdsec =>
      nextScreen { m with config := { m.config with DoCrowdsecInstall := m.focusIndex == 0 } }
  | .crowdsecManage =>
      nextScreen { m with config := { m.config with DoCrowdsecInstall :=
        if m.focusIndex == 1 then false else true } }
  | .setupToken => nextScreen m
  | _ => (m, [])

/-- `handleEnter` (tui.go lines 597-630). -/
def handleEnter (m : Model) : Model × List Eff :=
  if m.fields.length = 0 then nextScreen m
  else
    let currentField := m.fields.getD m.focusIndex emptyField
    match currentField.fieldType with
    | .fieldButton => handleButtonPress m
    | .fieldInput =>
        if m.focusIndex < m.fields.length - 1 then handleNavigation m 1
        else
          let hasButton :=
            (m.fields.drop (m.focusIndex + 1)).any (fun f => f.fieldType == FieldType.fieldButton)
          if hasButton then handleNavigation m 1
          else handleSubmit m

/-- The `focusedOnInput` computation at the top of the `tea.KeyMsg` case
(tui.go lines 408-411). -/
def focusedOnInput (m : Model) : Bool :=
  decide (m.focusIndex < m.fields.length) &&
    (m.fields.getD m.focusIndex emptyField).fieldType == FieldType.fieldInput &&
    (m.fields.getD m.focusIndex emptyField).focused

/-- Typing a printable rune into the focused text input (the trailing
"Update focused input" block of `model.Update`): appended subject to the
CharLimit of 100.  The widget ignores the event when unfocused. -/
def insertChar (m : Model) (c : Char) : Model :=
  if m.focusIndex < m.fields.length then
    let f := m.fields.getD m.focusIndex emptyField
    if f.fieldType == FieldType.fieldInput && f.focused && decide (f.value.length < 100) then
      { m with fields := m.fields.set m.focusIndex { f with value := f.value.push c } }
    else m
  else m

/-- The trailing input/viewport update a key event reaches when no `case`
arm returns early: only printable runes (and `?`, when it was not consumed
as the help toggle) change the model; enter/esc/tab/arrows are cursor or
scroll movement, which is presentation-only. -/
def trailingUpdate (m : Model) (k : Key) : Model :=
  match k with
  | .char c => insertChar m c
  | .help => insertChar m '?'
  | _ => m

/-- `model.Update` (tui.go lines 396-540), restricted to the behavioural
messages.  Returns the new model plus the effects of the returned command. -/
def update (m : Model) (msg : Msg) : Model × List Eff :=
  match msg with
  | .keyMsg k =>
      match k with
      | .ctrlC => (m, [Eff.quit])
      | .help =>
          if ¬ focusedOnInput m then ({ m with showHelp := !m.showHelp }, [])
          else (trailingUpdate m Key.help, [])
      | .esc =>
          if m.currentScreen ≠ ScreenID.install ∧ ¬ focusedOnInput m then handleBack m
          else (trailingUpdate m Key.esc, [])
      | .enter =>
          if m.currentScreen ≠ ScreenID.install then handleEnter m
          else (trailingUpdate m Key.enter, [])
      | .tab =>
          if m.currentScreen ≠ ScreenID.install then handleNavigation m 1
          else (trailingUpdate m Key.tab, [])
      | .shiftTab =>
          if m.currentScreen ≠ ScreenID.install then handleNavigation m (-1)
          else (trailingUpdate m Key.shiftTab, [])
      | .up => (trailingUpdate m Key.up, [])
      | .down => (trailingUpdate m Key.down, [])
      | .left =>
          if m.currentScreen ≠ ScreenID.install ∧ ¬ focusedOnInput m ∧ hasButtonFields m then
            handleNavigation m (-1)
          else (trailingUpdate m Key.left, [])
      | .right =>
          if m.currentScreen ≠ ScreenID.install ∧ ¬ focusedOnInput m ∧ hasButtonFields m then
            handleNavigation m 1
          else (trailingUpdate m Key.right, [])
      | .char c => (trailingUpdate m (Key.char c), [])
  | .installStepMsg s => ({ m with installStep := s }, [])
  | .installLogMsg log =>
      let logs := appendOne m.installLogs log
      ({ m with installLogs := logs, viewportContent := String.intercalate "\n" logs }, [])
  | .installBatchLogsMsg logs =>
      let newLogs := appendBatch m.installLogs logs
      let m := { m with installLogs := newLogs,
                        viewportContent := String.intercalate "\n" newLogs }
      match scanLogs logs with
      | some true => (m, [Eff.deliver Msg.installCompleteMsg])
      | some false => (m, [Eff.deliver (Msg.installErrorMsg "installation failed")])
      | none => (m, [])
  | .installCompleteMsg => ({ m with installing := false }, [])
  | .installErrorMsg e => ({ m with installing := false, err := some e }, [])

/-- Deliver a list of messages to the controller in order, accumulating the
effects of the returned commands (the orchestrator's per-step delivery). -/
def runMsgs (m : Model) : List Msg → Model × List Eff
  | [] => (m, [])
  | msg :: rest =>
      let r := update m msg
      let r2 := runMsgs r.1 rest
      (r2.1, r.2 ++ r2.2)

/-- The shape of a field: everything but its mutable value and focus.  A
state's fields "match the screen" when their shapes agree with the field
set `initScreen` builds (values may have been edited since). -/
def fieldShape (f : Field) : FieldType × String × Bool :=
  (f.fieldType, f.label, f.required)

/-- A controller state that is busy on the primary install screen, as left
by `startInstallation`. -/
def c2ExModel : Model := { currentScreen := ScreenID.install, installing := true }

/-- A step sequence, delivered as the orchestrator delivers it (one
`installLogMsg` per step), whose last step emits a success-marker line. -/
def c2ExMsgs : List Msg :=
  [Msg.installLogMsg "✓ Containers started successfully",
   Msg.installLogMsg "🎉 Installation completed successfully!"]

/-- A controller state busy on the primary install screen with an empty sink. -/
def c3ExModel : Model := { currentScreen := ScreenID.install, installing := true }

/-- A five-step sequence whose third step emits a failure-marker line. -/
def c3ExLines : List String :=
  ["step 1 ok", "step 2 ok", "❌ Error: step 3 failed", "step 4 ok", "step 5 ok"]

/-- A controller state busy on the security-agent (crowdsec) install screen,
as left by `startCrowdsecInstallation`. -/
def c4ExModel : Model := { currentScreen := ScreenID.crowdsecInstall, installing := true }

/-- A controller state at the install-containers screen, about to enter the
primary install screen. -/
def c4EntryModel : Model := { currentScreen := ScreenID.installContainers }

/-- A controller state on the primary install screen (busy flag already
cleared by a completion event). -/
def c4InstallModel : Model := { currentScreen := ScreenID.install }

/-- A hybrid-mode domain-configuration state whose configuration was
hydrated from an earlier standard install (`loadExistingConfig` sets
`BaseDomain`), reachable by answering Yes at the hybrid-mode screen. -/
def c5ExHybridModel : Model := {
  currentScreen := ScreenID.domainConfig,
  config := { HybridMode := true, BaseDomain := "legacy.com" },
  fields := [{ (createInputField "Public IP or Domain" true) with value := "203.0.113.1" },
             createButtonField "Continue"] }

/-- A standard-mode domain-configuration state with base domain filled in
and the subdomain left blank (the spec's scenario input). -/
def c5ExStdModel : Model := {
  currentScreen := ScreenID.domainConfig,
  config := { HybridMode := false },
  fields := [{ (createInputField "Base Domain" true) with value := "example.com" },
             createInputField "Dashboard Subdomain" false,
             { (createInputField "Let's Encrypt Email" true) with value := "a@example.com" },
             createButtonField "Continue"] }

/-- The freshly built standard-mode domain-configuration screen (all inputs
empty, including the required Base Domain). -/
def c7ExModel : Model := initScreen { currentScreen := ScreenID.domainConfig }

/-- A field set of two text inputs followed by one button, focus on the
second (last) text input. -/
def c8ExModel : Model := {
  currentScreen := ScreenID.emailInput,
  fields := [{ (createInputField "SMTP Host" false) with value := "smtp.example.com" },
             { (createInputField "SMTP Port" false) with value := "587", focused := true },
             createButtonField "Continue"],
  focusIndex := 1 }

/-- A field set ending in a text input with no trailing button, focus on it. -/
def c8ExModelNoButton : Model := {
  currentScreen := ScreenID.emailInput,
  fields := [createInputField "SMTP Host" false,
             { (createInputField "SMTP Port" false) with value := "587", focused := true }],
  focusIndex := 1 }

end PangolinTui

namespace PangolinTui

/-- C1 counterexample: the claim is false even along a path the user
actually takes.  From the setup-token screen every configuration moves
forward to the complete screen, but `getPrevScreen` at the complete screen
returns the complete screen itself (the "can't go back" fixed point), never
the setup-token screen. -/
theorem c1_counterexample :
    getNextScreen ScreenID.setupToken 0 cfg0 = ScreenID.complete ∧
    getPrevScreen (getNextScreen ScreenID.setupToken 0 cfg0) cfg0 ≠ ScreenID.setupToken := by
  decide

/-- C1 (amended): complete characterization of when `prev` inverts `next`.
The inverse property `getPrevScreen (getNextScreen s c cfg) cfg = s` holds
exactly under `nextPrevInvCond`: always for the welcome, domain-config,
advanced-config, container, install-containers and complete screens; for
the hybrid-mode, hybrid-credentials, email-config, email-input and install
screens exactly when the configuration is consistent with the branch taken;
and never for the transitions leaving the crowdsec screen under a "No"
choice, the crowdsec-manage screen, the crowdsec-install screen or the
setup-token screen. -/
theorem c1_next_prev_inverse_characterization
    (s : ScreenID) (choice : Nat) (cfg : Config) :
    getPrevScreen (getNextScreen s choice cfg) cfg = s ↔ nextPrevInvCond s choice cfg := by
  cases s <;>
    by_cases hc : choice = 0 <;>
      cases hH : cfg.HybridMode <;>
        cases hE : cfg.EnableEmail <;>
          cases hD : cfg.DoCrowdsecInstall <;>
            simp [getNextScreen, getPrevScreen, nextPrevInvCond, hc, hH, hE, hD]

end PangolinTui

namespace PangolinTui

/-- Single append in drop normal form, from any state within the bound. -/
theorem appendOne_eq (logs : List String) (log : String) (h : logs.length ≤ 200) :
    appendOne logs log = (logs ++ [log]).drop ((logs ++ [log]).length - 200) := by
  simp only [appendOne]
  split
  · rename_i hgt
    congr 1
    simp only [List.length_append, List.length_singleton] at hgt ⊢
    omega
  · rename_i hle
    have hz : (logs ++ [log]).length - 200 = 0 := by
      simp only [List.length_append, List.length_singleton] at hle ⊢
      omega
    rw [hz, List.drop_zero]

/-- Batch append in drop normal form. -/
theorem appendBatch_eq (logs newLogs : List String) :
    appendBatch logs newLogs = (logs ++ newLogs).drop ((logs ++ newLogs).length - 200) := by
  simp only [appendBatch]
  split
  · rfl
  · rename_i hle
    have hz : (logs ++ newLogs).length - 200 = 0 := by omega
    rw [hz, List.drop_zero]

/-- Single append preserves the 200-line bound. -/
theorem appendOne_length_le {logs : List String} (log : String) (h : logs.length ≤ 200) :
    (appendOne logs log).length ≤ 200 := by
  rw [appendOne_eq logs log h]
  simp only [List.length_drop, List.length_append, List.length_singleton]
  omega

/-- Batch append always lands at or under the 200-line bound. -/
theorem appendBatch_length_le (logs newLogs : List String) :
    (appendBatch logs newLogs).length ≤ 200 := by
  rw [appendBatch_eq]
  simp only [List.length_drop]
  omega

/-- One single-line append followed by a batch append equals one larger
batch append, provided the sink respects its bound. -/
theorem appendBatch_appendOne (logs : List String) (log : String) (rest : List String)
    (h : logs.length ≤ 200) :
    appendBatch (appendOne logs log) rest = appendBatch logs (log :: rest) := by
  rw [appendOne_eq logs log h, appendBatch_eq, appendBatch_eq]
  have hassoc : logs ++ log :: rest = (logs ++ [log]) ++ rest := by simp
  rw [hassoc]
  rw [← List.drop_append_of_le_length (Nat.sub_le _ _)]
  rw [List.drop_drop]
  congr 1
  simp only [List.length_drop, List.length_append, List.length_singleton]
  omega

/-- Folding single-line appends equals one batch append, from any state
respecting the 200-line bound. -/
theorem foldl_appendOne_eq_appendBatch (lines : List String) (logs : List String)
    (h : logs.length ≤ 200) :
    lines.foldl appendOne logs = appendBatch logs lines := by
  induction lines generalizing logs with
  | nil =>
      unfold appendBatch
      rw [if_neg (by simpa using by omega)]
      simp
  | cons l ls ih =>
      rw [List.foldl_cons, ih (appendOne logs l) (appendOne_length_le l h),
        appendBatch_appendOne logs l ls h]

/-- Delivering a list of single-line log events only grows the sink:
everything else in the controller state is untouched and no command is
produced. -/
theorem runMsgs_logMsgs (lines : List String) (m : Model) :
    (runMsgs m (lines.map Msg.installLogMsg)).1.installLogs =
        lines.foldl appendOne m.installLogs ∧
    (runMsgs m (lines.map Msg.installLogMsg)).1.err = m.err ∧
    (runMsgs m (lines.map Msg.installLogMsg)).1.installing = m.installing ∧
    (runMsgs m (lines.map Msg.installLogMsg)).1.currentScreen = m.currentScreen ∧
    (runMsgs m (lines.map Msg.installLogMsg)).2 = [] := by
  induction lines generalizing m with
  | nil => exact ⟨rfl, rfl, rfl, rfl, rfl⟩
  | cons l ls ih =>
      have h := ih ({ m with
        installLogs := appendOne m.installLogs l,
        viewportContent := String.intercalate "\n" (appendOne m.installLogs l) })
      simp only [List.map_cons, runMsgs, update, List.foldl_cons]
      exact ⟨h.1, h.2.1, h.2.2.1, h.2.2.2.1, by simpa using h.2.2.2.2⟩

/-- C6: the log sink never retains more than 200 lines; appending K > 200
lines one at a time from empty leaves exactly the last 200 in arrival
order; and batch append agrees with the same lines appended one at a time,
from any state within the bound. -/
theorem c6_log_sink_bounded (logs lines : List String) (h : logs.length ≤ 200) :
    lines.foldl appendOne logs = appendBatch logs lines ∧
    (lines.foldl appendOne logs).length ≤ 200 ∧
    (200 < lines.length →
      lines.foldl appendOne ([] : List String) = lines.drop (lines.length - 200)) := by
  refine ⟨foldl_appendOne_eq_appendBatch lines logs h, ?_, ?_⟩
  · rw [foldl_appendOne_eq_appendBatch lines logs h]
    exact appendBatch_length_le logs lines
  · intro hgt
    rw [foldl_appendOne_eq_appendBatch lines [] (by simp)]
    unfold appendBatch
    simp [hgt]

/-- C6 witness at a concrete sink and batch. -/
theorem c6_log_sink_bounded_witness :
    (["a"] : List String).length ≤ 200 ∧
    ((["b", "c"] : List String).foldl appendOne ["a"] = appendBatch ["a"] ["b", "c"] ∧
     ((["b", "c"] : List String).foldl appendOne ["a"]).length ≤ 200 ∧
     (200 < (["b", "c"] : List String).length →
       (["b", "c"] : List String).foldl appendOne ([] : List String) =
         (["b", "c"] : List String).drop ((["b", "c"] : List String).length - 200))) :=
  ⟨by decide, c6_log_sink_bounded ["a"] ["b", "c"] (by decide)⟩

/-- C10: a single-line log event only appends to the sink and refreshes the
viewport content; the busy flag, the error state, the current screen, the
configuration and the focus are untouched, and no command is produced — in
particular no success/failure-marker scanning happens on single-line
events. -/
theorem c10_single_log_frame (m : Model) (log : String) :
    (update m (Msg.installLogMsg log)).1.installing = m.installing ∧
    (update m (Msg.installLogMsg log)).1.err = m.err ∧
    (update m (Msg.installLogMsg log)).1.currentScreen = m.currentScreen ∧
    (update m (Msg.installLogMsg log)).1.config = m.config ∧
    (update m (Msg.installLogMsg log)).1.focusIndex = m.focusIndex ∧
    (update m (Msg.installLogMsg log)).1.fields = m.fields ∧
    (update m (Msg.installLogMsg log)).1.installLogs = appendOne m.installLogs log ∧
    (update m (Msg.installLogMsg log)).2 = [] :=
  ⟨rfl, rfl, rfl, rfl, rfl, rfl, rfl, rfl⟩

/-- C9: the entry and exit screens are fixed points of the transition
functions — `prev` fixes the welcome screen for every configuration and
`next` fixes the complete screen for every choice and configuration — and
the controller turns any `prev` self-loop (in particular the welcome
screen's) into a quit signal, leaving the state unchanged. -/
theorem c9_terminal_fixed_points :
    (∀ cfg : Config, getPrevScreen ScreenID.welcome cfg = ScreenID.welcome) ∧
    (∀ (choice : Nat) (cfg : Config),
        getNextScreen ScreenID.complete choice cfg = ScreenID.complete) ∧
    (∀ m : Model, getPrevScreen m.currentScreen m.config = m.currentScreen →
        handleBack m = (m, [Eff.quit])) := by
  refine ⟨fun _ => rfl, fun _ _ => rfl, fun m h => ?_⟩
  unfold handleBack
  by_cases hw : m.currentScreen = ScreenID.welcome
  · rw [if_pos hw]
  · rw [if_neg hw, if_pos h]

/-- C9 witness: the welcome screen's self-loop quits. -/
theorem c9_terminal_fixed_points_witness :
    handleBack { currentScreen := ScreenID.welcome } =
      ({ currentScreen := ScreenID.welcome }, [Eff.quit]) :=
  c9_terminal_fixed_points.2.2 { currentScreen := ScreenID.welcome } (by decide)

end PangolinTui

namespace PangolinTui

/-- C2 counterexample: a step sequence delivered as the orchestrator
delivers it (one single-line log event per step) whose last step emits a
line containing the designated success marker does NOT end in the completed
state: the busy flag stays set, no error is recorded, and no completion
command is ever produced, because single-line log events are never scanned
for markers. -/
theorem c2_counterexample :
    strContains "🎉 Installation completed successfully!" successMarker = true ∧
    (runMsgs c2ExModel c2ExMsgs).1.installing = true ∧
    (runMsgs c2ExModel c2ExMsgs).1.err = none ∧
    (runMsgs c2ExModel c2ExMsgs).2 = [] := by
  refine ⟨by decide, by decide, by decide, by decide⟩

/-- C2 (amended): success-marker detection applies only to batch-log
events.  When a batch-log event's lines, scanned in order, hit the success
marker before any line containing "Error", the controller appends the whole
batch to the sink and emits a completion event, and processing that
completion event clears the busy flag while leaving the error state and the
current screen untouched.  A success-marker line delivered as a single-line
log event never triggers completion (see the counterexample). -/
theorem c2_success_detection_batch_only (m : Model) (logs : List String)
    (h : scanLogs logs = some true) :
    (update m (Msg.installBatchLogsMsg logs)).2 = [Eff.deliver Msg.installCompleteMsg] ∧
    (update m (Msg.installBatchLogsMsg logs)).1.installLogs = appendBatch m.installLogs logs ∧
    (update (update m (Msg.installBatchLogsMsg logs)).1 Msg.installCompleteMsg).1.installing
      = false ∧
    (update (update m (Msg.installBatchLogsMsg logs)).1 Msg.installCompleteMsg).1.err = m.err ∧
    (update (update m (Msg.installBatchLogsMsg logs)).1 Msg.installCompleteMsg).1.currentScreen
      = m.currentScreen := by
  simp [update, h]

/-- C2 witness at a concrete busy state and one-line batch. -/
theorem c2_success_detection_batch_only_witness :
    scanLogs ["🎉 Installation completed successfully!"] = some true ∧
    ((update c2ExModel (Msg.installBatchLogsMsg ["🎉 Installation completed successfully!"])).2
        = [Eff.deliver Msg.installCompleteMsg] ∧
     (update c2ExModel
        (Msg.installBatchLogsMsg ["🎉 Installation completed successfully!"])).1.installLogs
        = appendBatch c2ExModel.installLogs ["🎉 Installation completed successfully!"] ∧
     (update (update c2ExModel
          (Msg.installBatchLogsMsg ["🎉 Installation completed successfully!"])).1
        Msg.installCompleteMsg).1.installing = false ∧
     (update (update c2ExModel
          (Msg.installBatchLogsMsg ["🎉 Installation completed successfully!"])).1
        Msg.installCompleteMsg).1.err = c2ExModel.err ∧
     (update (update c2ExModel
          (Msg.installBatchLogsMsg ["🎉 Installation completed successfully!"])).1
        Msg.installCompleteMsg).1.currentScreen = c2ExModel.currentScreen) :=
  ⟨by decide,
   c2_success_detection_batch_only c2ExModel
     ["🎉 Installation completed successfully!"] (by decide)⟩

/-- C3 counterexample: a five-step sequence whose third step emits a
failure-marker line, delivered as the orchestrator delivers it (one
single-line log event per step).  All five lines land in the sink in order
— but the final reported outcome is NOT failure: the error state stays
unset and no failure command is ever produced, because single-line log
events are never scanned for markers. -/
theorem c3_counterexample :
    strContains "❌ Error: step 3 failed" "Error" = true ∧
    (runMsgs c3ExModel (c3ExLines.map Msg.installLogMsg)).1.installLogs = c3ExLines ∧
    (runMsgs c3ExModel (c3ExLines.map Msg.installLogMsg)).1.err = none ∧
    (runMsgs c3ExModel (c3ExLines.map Msg.installLogMsg)).2 = [] := by
  refine ⟨by decide, by decide, by decide, by decide⟩

/-- C3 (amended): when a failure-marker line is delivered, all steps still
execute and the sink receives one line per step in order — but the error
state is set only when the lines arrive in a batch-log event (whose scan
hits a line containing "Error" before any success marker): the batch is
appended whole, a failure command is emitted, and processing it sets the
error state and clears the busy flag.  The same lines delivered as
single-line events leave the error state and busy flag untouched. -/
theorem c3_failure_detection_batch_only (m : Model) (lines : List String)
    (hlen : m.installLogs.length ≤ 200) (h : scanLogs lines = some false) :
    ((runMsgs m (lines.map Msg.installLogMsg)).1.installLogs
        = appendBatch m.installLogs lines ∧
     (runMsgs m (lines.map Msg.installLogMsg)).1.err = m.err ∧
     (runMsgs m (lines.map Msg.installLogMsg)).1.installing = m.installing ∧
     (runMsgs m (lines.map Msg.installLogMsg)).2 = []) ∧
    ((update m (Msg.installBatchLogsMsg lines)).2
        = [Eff.deliver (Msg.installErrorMsg "installation failed")] ∧
     (update m (Msg.installBatchLogsMsg lines)).1.installLogs
        = appendBatch m.installLogs lines ∧
     (update (update m (Msg.installBatchLogsMsg lines)).1
        (Msg.installErrorMsg "installation failed")).1.err = some "installation failed" ∧
     (update (update m (Msg.installBatchLogsMsg lines)).1
        (Msg.installErrorMsg "installation failed")).1.installing = false) := by
  constructor
  · have hr := runMsgs_logMsgs lines m
    refine ⟨?_, hr.2.1, hr.2.2.1, hr.2.2.2.2⟩
    rw [hr.1, foldl_appendOne_eq_appendBatch lines m.installLogs hlen]
  · simp [update, h]

/-- C3 witness at the concrete five-step failing sequence. -/
theorem c3_failure_detection_batch_only_witness :
    c3ExModel.installLogs.length ≤ 200 ∧ scanLogs c3ExLines = some false ∧
    (((runMsgs c3ExModel (c3ExLines.map Msg.installLogMsg)).1.installLogs
        = appendBatch c3ExModel.installLogs c3ExLines ∧
      (runMsgs c3ExModel (c3ExLines.map Msg.installLogMsg)).1.err = c3ExModel.err ∧
      (runMsgs c3ExModel (c3ExLines.map Msg.installLogMsg)).1.installing
        = c3ExModel.installing ∧
      (runMsgs c3ExModel (c3ExLines.map Msg.installLogMsg)).2 = []) ∧
     ((update c3ExModel (Msg.installBatchLogsMsg c3ExLines)).2
        = [Eff.deliver (Msg.installErrorMsg "installation failed")] ∧
      (update c3ExModel (Msg.installBatchLogsMsg c3ExLines)).1.installLogs
        = appendBatch c3ExModel.installLogs c3ExLines ∧
      (update (update c3ExModel (Msg.installBatchLogsMsg c3ExLines)).1
        (Msg.installErrorMsg "installation failed")).1.err = some "installation failed" ∧
      (update (update c3ExModel (Msg.installBatchLogsMsg c3ExLines)).1
        (Msg.installErrorMsg "installation failed")).1.installing = false)) :=
  ⟨by decide, by decide,
   c3_failure_detection_batch_only c3ExModel c3ExLines (by decide) (by decide)⟩

end PangolinTui

namespace PangolinTui

/-- Rebuilding the field set touches only fields, focus and the displayed
error: screen, configuration and busy flag are preserved and the error is
cleared. -/
theorem initScreen_preserves (m : Model) :
    (initScreen m).currentScreen = m.currentScreen ∧
    (initScreen m).config = m.config ∧
    (initScreen m).installing = m.installing ∧
    (initScreen m).err = none := by
  obtain ⟨scr, cfg, flds, fi, err, sh, inst, lc, logs, vc, st, ip⟩ := m
  cases scr <;>
    simp [initScreen, updateFocus, apply_ite Model.currentScreen, apply_ite Model.config,
      apply_ite Model.installing, apply_ite Model.err]

/-- C4 counterexample: on the security-agent install screen with the busy
flag set, Esc is NOT rejected — back-navigation fires and lands on the
welcome screen (the `getPrevScreen` default arm), because the controller
gates navigation on `currentScreen == installScreen` rather than on the
`installing` flag. -/
theorem c4_counterexample :
    c4ExModel.installing = true ∧
    c4ExModel.currentScreen = ScreenID.crowdsecInstall ∧
    (update c4ExModel (Msg.keyMsg Key.esc)).1.currentScreen = ScreenID.welcome ∧
    (update c4ExModel (Msg.keyMsg Key.esc)).1.currentScreen ≠ c4ExModel.currentScreen := by
  refine ⟨rfl, rfl, by decide, by decide⟩

/-- C4 (amended): entering either provisioning screen (the primary install
screen or the security-agent install screen) via the screen graph does set
`installing = true`; but the rejection of Esc/Enter/Tab is keyed on the
screen, not the flag: on the primary install screen those keys always leave
the state unchanged (even after a completion or error event has cleared the
busy flag), while on the security-agent install screen they are not
disabled at all (see the counterexample). -/
theorem c4_provisioning_gating :
    (∀ m : Model,
        getNextScreen m.currentScreen m.lastChoice m.config = ScreenID.install ∨
          getNextScreen m.currentScreen m.lastChoice m.config = ScreenID.crowdsecInstall →
        (nextScreen m).1.installing = true ∧
        (nextScreen m).1.currentScreen
          = getNextScreen m.currentScreen m.lastChoice m.config) ∧
    (∀ m : Model, m.currentScreen = ScreenID.install →
        update m (Msg.keyMsg Key.esc) = (m, []) ∧
        update m (Msg.keyMsg Key.enter) = (m, []) ∧
        update m (Msg.keyMsg Key.tab) = (m, [])) := by
  constructor
  · intro m h
    rcases h with h | h <;>
      simp [nextScreen, startInstallation, startCrowdsecInstallation, h]
  · intro m h
    refine ⟨?_, ?_, ?_⟩ <;> simp [update, h, trailingUpdate]

/-- C4 witness: entering the install screen from the install-containers
screen sets the busy flag, and the three keys are inert on the install
screen. -/
theorem c4_provisioning_gating_witness :
    ((nextScreen c4EntryModel).1.installing = true ∧
     (nextScreen c4EntryModel).1.currentScreen
       = getNextScreen c4EntryModel.currentScreen c4EntryModel.lastChoice
           c4EntryModel.config) ∧
    (update c4InstallModel (Msg.keyMsg Key.esc) = (c4InstallModel, []) ∧
     update c4InstallModel (Msg.keyMsg Key.enter) = (c4InstallModel, []) ∧
     update c4InstallModel (Msg.keyMsg Key.tab) = (c4InstallModel, [])) :=
  ⟨c4_provisioning_gating.1 c4EntryModel (Or.inl rfl),
   c4_provisioning_gating.2 c4InstallModel rfl⟩

/-- C5 counterexample: a hybrid-mode submission after the configuration was
hydrated with a base domain (reachable: `loadExistingConfig` fills
`BaseDomain`, then the operator answers Yes at the hybrid-mode screen).
The dashboard domain is the raw input, but `BaseDomain` does not "remain
unset": it keeps its previous non-empty value, because the hybrid branch of
`validateAndSaveDomainConfig` never writes it. -/
theorem c5_counterexample :
    c5ExHybridModel.config.HybridMode = true ∧
    findRequiredEmpty c5ExHybridModel.fields = none ∧
    (validateAndSaveDomainConfig c5ExHybridModel).1.config.DashboardDomain = "203.0.113.1" ∧
    (validateAndSaveDomainConfig c5ExHybridModel).1.config.BaseDomain = "legacy.com" ∧
    (validateAndSaveDomainConfig c5ExHybridModel).1.config.BaseDomain ≠ "" := by
  refine ⟨rfl, by decide, by decide, by decide, by decide⟩

/-- C5 (amended): after every successful submission of the
domain-configuration screen — in standard mode the dashboard domain equals
`subdomain + "." + baseDomain` with an empty subdomain input replaced by
the literal default "pangolin", the base domain and Let's-Encrypt email
are stored as entered; in hybrid mode the dashboard domain equals the raw
input verbatim and `BaseDomain` is left unchanged (unset only if it was
already unset). -/
theorem c5_domain_derivation (m : Model)
    (hscr : m.currentScreen = ScreenID.domainConfig)
    (hok : findRequiredEmpty m.fields = none) :
    (m.config.HybridMode = false →
       (validateAndSaveDomainConfig m).1.config.BaseDomain
         = (m.fields.getD 0 emptyField).value ∧
       (validateAndSaveDomainConfig m).1.config.DashboardDomain
         = (if (m.fields.getD 1 emptyField).value = "" then "pangolin"
            else (m.fields.getD 1 emptyField).value) ++ "."
             ++ (m.fields.getD 0 emptyField).value ∧
       (validateAndSaveDomainConfig m).1.config.LetsEncryptEmail
         = (m.fields.getD 2 emptyField).value) ∧
    (m.config.HybridMode = true →
       (validateAndSaveDomainConfig m).1.config.DashboardDomain
         = (m.fields.getD 0 emptyField).value ∧
       (validateAndSaveDomainConfig m).1.config.BaseDomain = m.config.BaseDomain) := by
  constructor
  · intro hH
    simp [validateAndSaveDomainConfig, hok, hH, nextScreen, hscr, getNextScreen,
      (initScreen_preserves _).2.1]
  · intro hH
    simp [validateAndSaveDomainConfig, hok, hH, nextScreen, hscr, getNextScreen,
      (initScreen_preserves _).2.1]

/-- C5 witness: the spec's scenario — standard mode, base domain
"example.com", subdomain left blank — yields "pangolin.example.com". -/
theorem c5_domain_derivation_witness :
    (validateAndSaveDomainConfig c5ExStdModel).1.config.DashboardDomain
      = "pangolin.example.com" ∧
    (validateAndSaveDomainConfig c5ExStdModel).1.config.BaseDomain = "example.com" := by
  have h := (c5_domain_derivation c5ExStdModel rfl (by decide)).1 rfl
  exact ⟨h.2.1, h.1⟩

end PangolinTui

namespace PangolinTui

/-- C8: Enter on a text input.  On a text input that is not the last
interactive element, Enter advances focus to the next field (so on a
two-inputs-then-button screen with focus on the second input, focus moves
to the button), leaves the current screen and configuration unchanged and
performs no submission (no command at all); on the last field when it is a
text input (hence with no trailing button), Enter submits the screen
directly. -/
theorem c8_enter_focus_semantics :
    (∀ m : Model,
        m.focusIndex < m.fields.length - 1 →
        (m.fields.getD m.focusIndex emptyField).fieldType = FieldType.fieldInput →
        (handleEnter m).1.currentScreen = m.currentScreen ∧
        (handleEnter m).1.config = m.config ∧
        (handleEnter m).1.focusIndex = m.focusIndex + 1 ∧
        (handleEnter m).2 = []) ∧
    (∀ m : Model,
        m.fields ≠ [] →
        m.focusIndex = m.fields.length - 1 →
        (m.fields.getD m.focusIndex emptyField).fieldType = FieldType.fieldInput →
        handleEnter m = handleSubmit m) := by
  constructor
  · intro m h1 h2
    have hne : ¬ m.fields.length = 0 := by omega
    have hmod : (m.focusIndex + 1) % m.fields.length = m.focusIndex + 1 :=
      Nat.mod_eq_of_lt (by omega)
    have h2' : (m.fields[m.focusIndex]?.getD emptyField).fieldType = FieldType.fieldInput := by
      rw [← List.getD_eq_getElem?_getD]
      exact h2
    simp [handleEnter, hne, h2', h1, handleNavigation, updateFocus, hmod]
  · intro m hne h1 h2
    have hlen : ¬ m.fields.length = 0 := by
      simpa [List.length_eq_zero] using hne
    have hlt : ¬ m.focusIndex < m.fields.length - 1 := by omega
    have hdrop : m.fields.drop (m.focusIndex + 1) = [] :=
      List.drop_eq_nil_of_le (by omega)
    have h2' : (m.fields[m.focusIndex]?.getD emptyField).fieldType = FieldType.fieldInput := by
      rw [← List.getD_eq_getElem?_getD]
      exact h2
    simp [handleEnter, hlen, h2', hlt, hdrop]

/-- C8 witness: the spec's scenario (two inputs then a button, focus on the
second input) and the no-trailing-button direct submission. -/
theorem c8_enter_focus_semantics_witness :
    ((handleEnter c8ExModel).1.currentScreen = c8ExModel.currentScreen ∧
     (handleEnter c8ExModel).1.config = c8ExModel.config ∧
     (handleEnter c8ExModel).1.focusIndex = c8ExModel.focusIndex + 1 ∧
     (handleEnter c8ExModel).2 = []) ∧
    handleEnter c8ExModelNoButton = handleSubmit c8ExModelNoButton :=
  ⟨c8_enter_focus_semantics.1 c8ExModel (by decide) (by decide),
   c8_enter_focus_semantics.2 c8ExModelNoButton (by decide) (by decide) (by decide)⟩

/-- If some field is required with an empty value, the Go validation loop
finds such a field (the first one) and reports it. -/
theorem findRequiredEmpty_of_exists {fields : List Field}
    (h : ∃ f ∈ fields, f.required = true ∧ f.value = "") :
    ∃ g ∈ fields, g.required = true ∧ g.value = "" ∧ findRequiredEmpty fields = some g := by
  induction fields with
  | nil => simp at h
  | cons f rest ih =>
      by_cases hf : f.required = true ∧ f.value = ""
      · exact ⟨f, List.mem_cons_self f rest, hf.1, hf.2, by simp [findRequiredEmpty, hf]⟩
      · obtain ⟨w, hw, hw2⟩ := h
        rcases List.mem_cons.mp hw with rfl | hwr
        · exact absurd hw2 hf
        · obtain ⟨g, hg, hg1, hg2, hg3⟩ := ih ⟨w, hwr, hw2⟩
          exact ⟨g, List.mem_cons_of_mem _ hg, hg1, hg2,
            by simp [findRequiredEmpty, hf, hg3]⟩

/-- An index-dependent rewrite of every field that keeps its shape leaves
the list of shapes unchanged. -/
theorem mapIdx_shape_preserved (g : Nat → Field → Field)
    (hg : ∀ i f, fieldShape (g i f) = fieldShape f) (l : List Field) :
    (l.mapIdx g).map fieldShape = l.map fieldShape := by
  induction l generalizing g with
  | nil => simp
  | cons a as ih =>
      rw [List.mapIdx_cons, List.map_cons, List.map_cons, hg 0 a,
        ih (fun i f => g (i + 1) f) (fun i f => hg (i + 1) f)]

/-- Focus bookkeeping does not change any field's shape. -/
theorem map_fieldShape_updateFocus (m : Model) :
    (updateFocus m).fields.map fieldShape = m.fields.map fieldShape := by
  simp only [updateFocus]
  exact mapIdx_shape_preserved _
    (fun i f => by
      by_cases h : f.fieldType == FieldType.fieldInput <;> simp [h, fieldShape])
    m.fields

/-- Every field set `initScreen` builds for a screen other than the
domain-configuration screen consists of non-required fields. -/
theorem initScreen_no_required (m : Model)
    (hd : m.currentScreen ≠ ScreenID.domainConfig) :
    ∀ p ∈ (initScreen m).fields.map fieldShape, p.2.2 = false := by
  obtain ⟨scr, cfg, flds, fi, err, sh, inst, lc, logs, vc, st, ip⟩ := m
  cases scr
  case domainConfig => exact absurd rfl hd
  all_goals
    simp only [initScreen]
  all_goals
    rw [map_fieldShape_updateFocus]
  all_goals
    simp [fieldShape, createInputField, createButtonField, apply_ite Model.fields,
      apply_ite fieldShape, apply_ite Field.required]

/-- C7: submitting a screen while one of its fields (as built by
`initScreen`, values freely edited since) is required and empty never
changes the current screen or the configuration, produces no command, and
sets a non-empty validation error naming a required-and-empty field. -/
theorem c7_required_empty_blocks_submit (m : Model)
    (hshape : m.fields.map fieldShape = (initScreen m).fields.map fieldShape)
    (hreq : ∃ f ∈ m.fields, f.required = true ∧ f.value = "") :
    (handleSubmit m).1.currentScreen = m.currentScreen ∧
    (handleSubmit m).1.config = m.config ∧
    (handleSubmit m).2 = [] ∧
    ∃ g ∈ m.fields, g.required = true ∧ g.value = "" ∧
      (handleSubmit m).1.err = some (g.label ++ " is required") := by
  by_cases hd : m.currentScreen = ScreenID.domainConfig
  · obtain ⟨g, hgmem, hgr, hgv, hfind⟩ := findRequiredEmpty_of_exists hreq
    refine ⟨?_, ?_, ?_, g, hgmem, hgr, hgv, ?_⟩ <;>
      simp [handleSubmit, hd, validateAndSaveDomainConfig, hfind]
  · exfalso
    obtain ⟨f, hf, hfr, hfv⟩ := hreq
    have hmem : fieldShape f ∈ m.fields.map fieldShape := List.mem_map_of_mem _ hf
    rw [hshape] at hmem
    have := initScreen_no_required m hd _ hmem
    simp [fieldShape, hfr] at this

/-- C7 witness: the freshly built standard-mode domain screen with its
required Base Domain input empty. -/
theorem c7_required_empty_blocks_submit_witness :
    c7ExModel.fields.map fieldShape = (initScreen c7ExModel).fields.map fieldShape ∧
    (∃ f ∈ c7ExModel.fields, f.required = true ∧ f.value = "") ∧
    ((handleSubmit c7ExModel).1.currentScreen = c7ExModel.currentScreen ∧
     (handleSubmit c7ExModel).1.config = c7ExModel.config ∧
     (handleSubmit c7ExModel).2 = [] ∧
     ∃ g ∈ c7ExModel.fields, g.required = true ∧ g.value = "" ∧
       (handleSubmit c7ExModel).1.err = some (g.label ++ " is required")) :=
  ⟨by decide, by decide,
   c7_required_empty_blocks_submit c7ExModel (by decide) (by decide)⟩

end PangolinTui
